import Mathlib

/-!
Verification development for the `llms.py` module of the GenerateAI
repository (a thin convenience layer over langchain / ctransformers).

The repository's own code is the four factory functions `get_mistral`,
`get_gpt4all`, `get_ollama`, the prompt builder `get_prompt`, and the
query executor `get_answer`.  They are pass-throughs into third-party
constructors; the third-party collaborators (langchain's PromptTemplate
with strict f-string formatting, the model constructors, the generation
loop) are not part of the source tree, so they are modelled here from the
specification's description of them, faithful to the documented behaviour
of the wrapped libraries of the repository's era, and each spec-modelled
definition is marked as such in its doc comment.
-/

/-! ## Template formatting (models Python str.format as used by langchain
with a strict formatter: a slot is `\x7bname\x7d`, doubled braces escape,
a declared-but-unused keyword and an undeclared slot are both errors). -/

/-- Decidable equality on Except, needed to evaluate the embedded
fallible operations on concrete inputs. -/
instance {ε α : Type} [DecidableEq ε] [DecidableEq α] : DecidableEq (Except ε α) := by
  intro a b
  cases a <;> cases b
  case error.error e f => exact decidable_of_iff (e = f) (by simp)
  case ok.ok x y => exact decidable_of_iff (x = y) (by simp)
  all_goals exact isFalse (fun h => by cases h)

/-- TemplateError covers every way the prompt-template machinery can
reject a template: malformed brace syntax, a slot with no value provided
(Python KeyError), or a provided keyword not used by the template
(the strict formatter's unused-argument ValueError). -/
inductive TemplateError where
  | unclosedBrace
  | singleCloseBrace
  | nestedBrace
  | missingVariable (name : String)
  | unusedVariable (name : String)
deriving DecidableEq

/-- One segment of a parsed template: a literal character or a named slot. -/
inductive Seg where
  | lit (c : Char)
  | slot (name : String)
deriving DecidableEq

/-- Parser for the brace template syntax. The second argument is `none`
in literal mode and `some acc` while reading a slot name (accumulated in
reverse). Doubled braces are the escapes of Python format; a stray brace
is an error, as in Python. Format-spec suffixes are not modelled (the
repository uses none). -/
def parseAux : List Char → Option (List Char) → Except TemplateError (List Seg)
  | [], none => Except.ok []
  | [], some _ => Except.error TemplateError.unclosedBrace
  | '{' :: '{' :: rest, none => (parseAux rest none).map (fun l => Seg.lit '{' :: l)
  | '}' :: '}' :: rest, none => (parseAux rest none).map (fun l => Seg.lit '}' :: l)
  | '{' :: rest, none => parseAux rest (some [])
  | '}' :: _, none => Except.error TemplateError.singleCloseBrace
  | c :: rest, none => (parseAux rest none).map (fun l => Seg.lit c :: l)
  | '}' :: rest, some acc =>
      (parseAux rest none).map (fun l => Seg.slot (String.mk acc.reverse) :: l)
  | '{' :: _, some _ => Except.error TemplateError.nestedBrace
  | c :: rest, some acc => parseAux rest (some (c :: acc))

/-- Parse a template string into segments. -/
def parseSegs (t : String) : Except TemplateError (List Seg) :=
  parseAux t.data none

/-- The slot names of a segment list, in template order. -/
def segVars : List Seg → List String
  | [] => []
  | Seg.lit _ :: rest => segVars rest
  | Seg.slot n :: rest => n :: segVars rest

/-- Render parsed segments against an association list of values
(single pass: substituted values are never re-scanned, as in Python
format). Every slot is guaranteed a value by the checks of
`formatStrict`, so the default is unreachable there. -/
def renderSegs (vals : List (String × String)) : List Seg → String
  | [] => ""
  | Seg.lit c :: rest => c.toString ++ renderSegs vals rest
  | Seg.slot n :: rest => ((vals.lookup n).getD "") ++ renderSegs vals rest

/-- The checking-and-rendering stage of strict formatting on parsed
segments: fail on a slot without a value (Python KeyError), fail on a
provided keyword the template does not use (the strict formatter of
langchain), otherwise render. -/
def formatChecked (segs : List Seg) (vals : List (String × String)) :
    Except TemplateError String :=
  match (segVars segs).find? (fun n => (vals.lookup n).isNone) with
  | some n => Except.error (TemplateError.missingVariable n)
  | none =>
    match (vals.map Prod.fst).find? (fun k => !(segVars segs).contains k) with
    | some k => Except.error (TemplateError.unusedVariable k)
    | none => Except.ok (renderSegs vals segs)

/-- Strict formatting of a template string: parse, then check and render. -/
def formatStrict (template : String) (vals : List (String × String)) :
    Except TemplateError String :=
  match parseSegs template with
  | Except.error e => Except.error e
  | Except.ok segs => formatChecked segs vals

/-- The slot names of a template string ([] when it does not parse). -/
def templateVariables (t : String) : List String :=
  match parseSegs t with
  | Except.ok segs => segVars segs
  | Except.error _ => []

/-! ## PromptTemplate (models langchain's PromptTemplate of the
repository's era: declared input variables are validated against the
template at construction, and `.partial` moves a variable from the
input variables to stored preset values without re-validation). -/

/-- A prompt template: the raw text, the remaining declared input
variables, and the values already bound by partial application
(langchain's partial_variables, called preset_variables here). -/
structure PromptTemplate where
  template : String
  input_variables : List String
  preset_variables : List (String × String)
deriving DecidableEq

/-- Modelled from the spec: construction of a langchain PromptTemplate
with template validation (the era's default), which strict-formats the
template with a dummy value per declared variable, so construction fails
with a TemplateError unless the template's slot set is exactly the
declared variable set. -/
def mkPromptTemplate (template : String) (input_variables : List String) :
    Except TemplateError PromptTemplate :=
  match formatStrict template (input_variables.map (fun v => (v, "foo"))) with
  | Except.error e => Except.error e
  | Except.ok _ => Except.ok ⟨template, input_variables, []⟩

/-- Partial application of a template (langchain's `.partial`): the bound
keys leave the input variables and their values are stored for render
time; the template text itself is untouched. -/
def PromptTemplate.bindPreset (pt : PromptTemplate) (kvs : List (String × String)) :
    PromptTemplate :=
  ⟨pt.template,
   pt.input_variables.filter (fun v => (kvs.lookup v).isNone),
   pt.preset_variables ++ kvs⟩

/-- Rendering a template at call time: the call-time keyword arguments
are merged with the preset values (call-time values win, as in the
dictionary merge of langchain) and the template is strict-formatted once. -/
def PromptTemplate.format (pt : PromptTemplate) (kwargs : List (String × String)) :
    Except TemplateError String :=
  formatStrict pt.template (kwargs ++ pt.preset_variables)

/-- `get_prompt` from llms.py: constructs a PromptTemplate with the fixed
declared variables `question` and `context` (not inferred from the
template text) and immediately binds `context` by partial application. -/
def get_prompt (template : String) (context : String) :
    Except TemplateError PromptTemplate :=
  match mkPromptTemplate template ["question", "context"] with
  | Except.error e => Except.error e
  | Except.ok pt => Except.ok (pt.bindPreset [("context", context)])

/-- `get_answer` from llms.py: calls the provided model object on the
single-entry mapping from the key `question` to the question and returns
whatever the call returns, unchanged. The model object is an arbitrary
callable, so the result type is whatever the callable produces. -/
def get_answer {α : Type} (llm : List (String × String) → α) (question : String) : α :=
  llm [("question", question)]

/-! ## Local model factory `get_mistral` (ctransformers) -/

/-- The four numeric configuration parameters of a ctransformers Config,
as fixed in the source of `get_mistral`. The two float-typed parameters
are modelled as rationals. -/
structure CTConfig where
  temperature : ℚ
  repetition_penalty : ℚ
  max_new_tokens : ℕ
  context_length : ℕ
deriving DecidableEq

/-- A ctransformers AutoConfig, which wraps a Config. -/
structure AutoConfigWrap where
  config : CTConfig
deriving DecidableEq

/-- A keyword-argument value of the from_pretrained call of the source:
either the config object or a string. -/
inductive KwVal where
  | conf (c : AutoConfigWrap)
  | str (s : String)
deriving DecidableEq

/-- The handle a successful from_pretrained call would produce: the
artifact path plus whatever model_type and config keywords were passed. -/
structure CTModelHandle where
  path : String
  model_type : Option String
  config : Option AutoConfigWrap
deriving DecidableEq

/-- Failure of the from_pretrained call. A call whose keyword list
repeats a name is ill-formed (in Python, a repeated keyword argument is
a SyntaxError), so it never produces a handle. -/
inductive MistralErr where
  | duplicateKeyword
deriving DecidableEq

/-- The from_pretrained call, modelled over an explicit keyword list so
that the well-formedness of the call site is visible: Python requires
the keyword names to be pairwise distinct. -/
def from_pretrained (path : String) (kwargs : List (String × KwVal)) :
    Except MistralErr CTModelHandle :=
  if (kwargs.map Prod.fst).Nodup then
    Except.ok
      ⟨path,
       (match kwargs.lookup "model_type" with
        | some (KwVal.str s) => some s
        | _ => none),
       (match kwargs.lookup "config" with
        | some (KwVal.conf c) => some c
        | _ => none)⟩
  else Except.error MistralErr.duplicateKeyword

/-- The configuration object built inside `get_mistral`:
AutoConfig(Config(temperature=0.8, repetition_penalty=1.2,
max_new_tokens=1024, context_length=2048)). Fixed; `get_mistral` takes
no parameters. -/
def mistral_conf : AutoConfigWrap :=
  ⟨⟨(8 : ℚ) / 10, (12 : ℚ) / 10, 1024, 2048⟩⟩

/-- The keyword arguments of the AutoModelForCausalLM.from_pretrained
call in `get_mistral`, exactly as written in the source: the `config`
keyword appears twice. -/
def mistral_call_kwargs : List (String × KwVal) :=
  [("config", KwVal.conf mistral_conf),
   ("model_type", KwVal.str "mistral"),
   ("config", KwVal.conf mistral_conf)]

/-- `get_mistral` from llms.py: a zero-parameter factory that calls
from_pretrained on the fixed path "models/mistral" with the keyword
list above. -/
def get_mistral : Except MistralErr CTModelHandle :=
  from_pretrained "models/mistral" mistral_call_kwargs

/-- Modelled from the spec: `createLocalModel(configOverrides)` as the
spec describes it — a fixed artifact path and backend tag with the
caller's configuration applied to the constructed handle. Stated only to
be compared against the source's `get_mistral`. -/
def createLocalModel_spec (cfg : CTConfig) : CTModelHandle :=
  ⟨"models/mistral", some "mistral", some ⟨cfg⟩⟩

/-! ## File-backed and named-service factories (langchain GPT4All, Ollama) -/

/-- A streaming callback handler; StreamingStdOutCallbackHandler is the
only kind the source ever constructs. -/
inductive Handler where
  | streamingStdOut
deriving DecidableEq

/-- A langchain CallbackManager: a list of handlers. -/
structure CallbackManager where
  handlers : List Handler
deriving DecidableEq

/-- The handle built by the GPT4All constructor: the keyword arguments
the source passes. -/
structure GPT4AllModel where
  model : String
  backend : String
  callbacks : Option (List Handler)
deriving DecidableEq

/-- Failure to load a model artifact from a file path. -/
inductive ModelLoadError where
  | missingFile
deriving DecidableEq

/-- `get_gpt4all` from llms.py: sets callbacks to None, or to a
one-element list holding a StreamingStdOutCallbackHandler if the
callback flag is set, then constructs GPT4All(model, backend, callbacks).
Modelled from the spec: the constructor reads the model file, so it is
given the set of existing paths `fs` and fails with a load error when
the path is absent, producing nothing else (the gateway is stateless and
pure, so failure changes no observable state). In the source the
`backend` parameter defaults to "gptj" and `callback` to False. -/
def get_gpt4all (fs : List String) (model_pth : String) (backend : String)
    (callback : Bool) : Except ModelLoadError GPT4AllModel :=
  let callbacks := if callback then some [Handler.streamingStdOut] else none
  if model_pth ∈ fs then Except.ok ⟨model_pth, backend, callbacks⟩
  else Except.error ModelLoadError.missingFile

/-- The handle built by the Ollama constructor: the keyword arguments
the source passes. -/
structure OllamaModel where
  model : String
  callback_manager : Option CallbackManager
deriving DecidableEq

/-- `get_ollama` from llms.py: sets callback_manager to None, or to a
CallbackManager holding exactly one StreamingStdOutCallbackHandler if
the callback flag is set, then constructs Ollama(model, callback_manager).
In the source `model_name` defaults to "llama2" and `callback` to False. -/
def get_ollama (model_name : String) (callback : Bool) : OllamaModel :=
  let cm := if callback then some (CallbackManager.mk [Handler.streamingStdOut]) else none
  ⟨model_name, cm⟩

/-! ## Generation semantics (spec-modelled: the generation loop lives in
the wrapped libraries, not in the source tree) -/

/-- Modelled from the spec: running a GPT4All handle on a question. The
underlying library produces a token stream determined by the model file,
the backend and the question (`gen` stands for that deterministic token
producer); the final answer is the accumulated tokens, and the attached
callbacks only receive the same tokens as a side-channel (second
component), never altering the generation path. -/
def runGPT4All (gen : String → String → String → List String)
    (llm : GPT4AllModel) (question : String) : String × List String :=
  let tokens := gen llm.model llm.backend question
  (String.join tokens,
   match llm.callbacks with
   | some _ => tokens
   | none => [])

/-- Modelled from the spec: running an Ollama handle on a question,
with the same accumulate-plus-side-channel reading as `runGPT4All`. -/
def runOllama (gen : String → String → List String)
    (llm : OllamaModel) (question : String) : String × List String :=
  let tokens := gen llm.model question
  (String.join tokens,
   match llm.callback_manager with
   | some _ => tokens
   | none => [])

/-! ## Chain invocation (spec-modelled: the repository wires no chain;
the spec's end-to-end property says the rendered template text is what
is handed to the model) -/

/-- Modelled from the spec: a model object that carries a prompt
template and a text-generation capability, as the end-to-end property of
the spec assumes when `get_answer` is called on it. -/
structure LLMChainModel where
  prompt : PromptTemplate
  generate : String → String

/-- Modelled from the spec: calling the chain on an input mapping
renders the prompt from the inputs plus the preset variables, hands the
rendered text to the generation capability, and returns the inputs
extended with the generated output. -/
def LLMChainModel.call (chain : LLMChainModel) (inputs : List (String × String)) :
    Except TemplateError (List (String × String)) :=
  match chain.prompt.format inputs with
  | Except.error e => Except.error e
  | Except.ok text => Except.ok (inputs ++ [("text", chain.generate text)])


/-! ## Claim theorems -/

/-- C8: the from_pretrained call in `get_mistral` passes the `config`
keyword twice, so the call is ill-formed (keyword names are not
pairwise distinct) and `get_mistral` never constructs a handle. -/
theorem C8_duplicate_config_keyword :
    (mistral_call_kwargs.map Prod.fst).count "config" = 2
    ∧ ¬ (mistral_call_kwargs.map Prod.fst).Nodup
    ∧ get_mistral = Except.error MistralErr.duplicateKeyword := by
  refine ⟨by decide, by decide, by decide⟩

/-- C7 counterexample: `get_mistral` does not produce the handle the
claim promises for a caller-supplied configuration — not even for the
very configuration hard-coded in the source — because it takes no
configuration parameter and its construction call is ill-formed. -/
theorem C7_counterexample :
    get_mistral ≠ Except.ok (createLocalModel_spec ⟨(5 : ℚ) / 10, 1, 10, 100⟩)
    ∧ get_mistral ≠ Except.ok (createLocalModel_spec ⟨(8 : ℚ) / 10, (12 : ℚ) / 10, 1024, 2048⟩) := by
  refine ⟨by decide, by decide⟩

/-- C7 amended: `get_mistral` accepts no caller configuration — the
configuration is fixed in the source (temperature 0.8, repetition
penalty 1.2, max_new_tokens 1024, context_length 2048), and the artifact
path and model_type tag are likewise fixed — and because the
construction call repeats the `config` keyword it returns no handle for
any would-be caller configuration. -/
theorem C7_amended :
    mistral_conf.config = ⟨(8 : ℚ) / 10, (12 : ℚ) / 10, 1024, 2048⟩
    ∧ mistral_call_kwargs.lookup "model_type" = some (KwVal.str "mistral")
    ∧ mistral_call_kwargs.lookup "config" = some (KwVal.conf mistral_conf)
    ∧ ∀ cfg : CTConfig, get_mistral ≠ Except.ok (createLocalModel_spec cfg) := by
  have hm : get_mistral = Except.error MistralErr.duplicateKeyword := by decide
  refine ⟨rfl, rfl, rfl, ?_⟩
  intro cfg h
  rw [hm] at h
  exact Except.noConfusion h

/-- C5: for the same model configuration and question, the streaming
flag does not change the final answer text, for the file-backed factory
and the named-service factory alike: the token producer depends only on
the non-callback configuration, and the callbacks are a pure
side-channel. -/
theorem C5_streaming_invariant (gen4 : String → String → String → List String)
    (geno : String → String → List String) (fs : List String) (p b q n : String) :
    (get_gpt4all fs p b true).map (fun h => (runGPT4All gen4 h q).1)
      = (get_gpt4all fs p b false).map (fun h => (runGPT4All gen4 h q).1)
    ∧ (runOllama geno (get_ollama n true) q).1
      = (runOllama geno (get_ollama n false) q).1 := by
  constructor
  · by_cases hp : p ∈ fs <;> simp [get_gpt4all, runGPT4All, hp, Except.map]
  · simp [get_ollama, runOllama]

/-- C6: a path naming no existing model file makes `get_gpt4all` fail
with a load error; being a pure function into Except, the failure
produces no handle and changes no state. -/
theorem C6_missing_model_file (fs : List String) (p b : String) (cb : Bool)
    (hp : p ∉ fs) :
    get_gpt4all fs p b cb = Except.error ModelLoadError.missingFile := by
  simp [get_gpt4all, hp]

/-- C6 witness at the empty filesystem and path "missing.bin". -/
theorem C6_missing_model_file_witness :
    "missing.bin" ∉ ([] : List String)
    ∧ get_gpt4all [] "missing.bin" "gptj" false
        = Except.error ModelLoadError.missingFile :=
  ⟨by simp, C6_missing_model_file [] "missing.bin" "gptj" false (by simp)⟩

/-- C10: with the callback flag off the constructors receive no callback
machinery at all (None); with it on they receive exactly one
StreamingStdOutCallbackHandler; no other sink configuration is
reachable through these factories. -/
theorem C10_callback_wiring (fs : List String) (p b n : String) (cb : Bool) :
    (get_gpt4all fs p b cb).map GPT4AllModel.callbacks
      = (if p ∈ fs then
           Except.ok (if cb then some [Handler.streamingStdOut] else none)
         else Except.error ModelLoadError.missingFile)
    ∧ (get_ollama n cb).callback_manager
      = (if cb then some (CallbackManager.mk [Handler.streamingStdOut]) else none) := by
  constructor
  · by_cases hp : p ∈ fs <;> simp [get_gpt4all, hp, Except.map]
  · rfl

/-- C9: whatever `get_prompt` returns has `question` as its sole
remaining input variable, with exactly `context` bound at construction
and the template text kept unchanged. -/
theorem C9_sole_free_variable (t c : String) (pt : PromptTemplate)
    (h : get_prompt t c = Except.ok pt) :
    pt.input_variables = ["question"]
    ∧ pt.preset_variables = [("context", c)]
    ∧ pt.template = t := by
  unfold get_prompt at h
  cases hm : mkPromptTemplate t ["question", "context"] with
  | error e => rw [hm] at h; exact absurd h (by simp)
  | ok pt0 =>
    rw [hm] at h
    unfold mkPromptTemplate at hm
    cases hf : formatStrict t (["question", "context"].map (fun v => (v, "foo"))) with
    | error e => rw [hf] at hm; exact absurd hm (by simp)
    | ok s =>
      rw [hf] at hm
      have hpt0 : pt0 = ⟨t, ["question", "context"], []⟩ := by
        cases hm; rfl
      subst hpt0
      have hpt : pt = PromptTemplate.bindPreset ⟨t, ["question", "context"], []⟩
          [("context", c)] := by
        cases h; rfl
      subst hpt
      exact ⟨rfl, rfl, rfl⟩

/-- C9 witness at a concrete two-slot template. -/
theorem C9_sole_free_variable_witness :
    (⟨"{question} {context}", ["question"], [("context", "ctx")]⟩ : PromptTemplate).input_variables
      = ["question"]
    ∧ (⟨"{question} {context}", ["question"], [("context", "ctx")]⟩ : PromptTemplate).preset_variables
      = [("context", "ctx")]
    ∧ (⟨"{question} {context}", ["question"], [("context", "ctx")]⟩ : PromptTemplate).template
      = "{question} {context}" :=
  C9_sole_free_variable "{question} {context}" "ctx" _ (by decide)

/-- C1 counterexample: `get_answer` forwards the model's output
unchanged, so a model whose call yields a mapping keyed `text` makes
`get_answer` return a mapping whose key is not `answer`, refuting the
claim that the result is keyed `answer` for every model object. -/
theorem C1_counterexample :
    (get_answer (fun _ => [("text", "hello")]) "q").map Prod.fst ≠ ["answer"] := by
  decide

/-- C1 amended: `get_answer` returns exactly the model's output on the
single-entry question mapping, adding no structure of its own; whenever
the model's call always yields a mapping with single key `answer`, so
does `get_answer`. -/
theorem C1_amended (llm : List (String × String) → List (String × String))
    (q : String) :
    get_answer llm q = llm [("question", q)]
    ∧ ((∀ inp, (llm inp).map Prod.fst = ["answer"]) →
        (get_answer llm q).map Prod.fst = ["answer"]) :=
  ⟨rfl, fun h => h _⟩

/-- C1 witness at a model that answers with the single key `answer`. -/
theorem C1_amended_witness :
    (∀ inp : List (String × String),
        ((fun _ => [("answer", "ok")] :
            List (String × String) → List (String × String)) inp).map Prod.fst
          = ["answer"])
    ∧ (get_answer (fun _ => [("answer", "ok")]) "hi").map Prod.fst = ["answer"] :=
  ⟨fun _ => rfl, (C1_amended (fun _ => [("answer", "ok")]) "hi").2 (fun _ => rfl)⟩

/-! ## Helper lemmas about the strict formatter -/

/-- Unfolding formatStrict on a parse failure. -/
lemma formatStrict_parse_error (t : String) (vals : List (String × String))
    (e : TemplateError) (hp : parseSegs t = Except.error e) :
    formatStrict t vals = Except.error e := by
  unfold formatStrict
  rw [hp]

/-- Unfolding formatStrict on a parse success. -/
lemma formatStrict_parse_ok (t : String) (vals : List (String × String))
    (segs : List Seg) (hp : parseSegs t = Except.ok segs) :
    formatStrict t vals = formatChecked segs vals := by
  unfold formatStrict
  rw [hp]

/-- Unfolding formatChecked when some slot has no value. -/
lemma formatChecked_missing (segs : List Seg) (vals : List (String × String))
    (n : String)
    (hfind : (segVars segs).find? (fun m => (vals.lookup m).isNone) = some n) :
    formatChecked segs vals = Except.error (TemplateError.missingVariable n) := by
  unfold formatChecked
  rw [hfind]

/-- Unfolding formatChecked when every slot has a value but some
provided key is unused. -/
lemma formatChecked_unused (segs : List Seg) (vals : List (String × String))
    (k : String)
    (hfind : (segVars segs).find? (fun m => (vals.lookup m).isNone) = none)
    (hfind2 : (vals.map Prod.fst).find? (fun m => !(segVars segs).contains m)
        = some k) :
    formatChecked segs vals = Except.error (TemplateError.unusedVariable k) := by
  unfold formatChecked
  rw [hfind, hfind2]

/-- Unfolding formatChecked when both checks pass: the render result. -/
lemma formatChecked_render (segs : List Seg) (vals : List (String × String))
    (hfind : (segVars segs).find? (fun m => (vals.lookup m).isNone) = none)
    (hfind2 : (vals.map Prod.fst).find? (fun m => !(segVars segs).contains m)
        = none) :
    formatChecked segs vals = Except.ok (renderSegs vals segs) := by
  unfold formatChecked
  rw [hfind, hfind2]

/-- Strict formatting succeeds and renders when every slot has a value
and every provided key is used. -/
lemma formatStrict_render (t : String) (segs : List Seg)
    (vals : List (String × String))
    (hp : parseSegs t = Except.ok segs)
    (hmiss : ∀ n ∈ segVars segs, (vals.lookup n).isNone = false)
    (hused : ∀ k ∈ vals.map Prod.fst, (segVars segs).contains k = true) :
    formatStrict t vals = Except.ok (renderSegs vals segs) := by
  rw [formatStrict_parse_ok t vals segs hp]
  exact formatChecked_render segs vals
    (List.find?_eq_none.mpr (fun n hn => by simp [hmiss n hn]))
    (List.find?_eq_none.mpr (fun k hk => by
      have h3 := hused k hk
      simp at h3 ⊢
      exact h3))

/-- Rendering depends on the value list only through the lookups of the
slot names that actually occur. -/
lemma renderSegs_congr (v1 v2 : List (String × String)) (segs : List Seg)
    (h : ∀ n ∈ segVars segs, v1.lookup n = v2.lookup n) :
    renderSegs v1 segs = renderSegs v2 segs := by
  induction segs with
  | nil => rfl
  | cons s rest ih =>
    cases s with
    | lit ch =>
      simp only [renderSegs]
      rw [ih (fun n hn => h n (by simp only [segVars]; exact hn))]
    | slot n =>
      simp only [renderSegs]
      rw [h n (by simp only [segVars]; exact List.mem_cons_self n _),
        ih (fun m hm => h m (by simp only [segVars]; exact List.mem_cons_of_mem n hm))]

/-- A formatting failure during validation propagates through
`mkPromptTemplate` to `get_prompt`. -/
lemma get_prompt_error_of_formatStrict (t c : String) (e : TemplateError)
    (h : formatStrict t (["question", "context"].map (fun v => (v, "foo")))
        = Except.error e) :
    get_prompt t c = Except.error e := by
  unfold get_prompt mkPromptTemplate
  rw [h]

/-- A validation success makes `get_prompt` return the partially
applied template. -/
lemma get_prompt_ok_of_formatStrict (t c s : String)
    (h : formatStrict t (["question", "context"].map (fun v => (v, "foo")))
        = Except.ok s) :
    get_prompt t c = Except.ok ⟨t, ["question"], [("context", c)]⟩ := by
  unfold get_prompt mkPromptTemplate
  rw [h]
  rfl

/-- C4: a template text missing the `question` slot or the `context`
slot (under the fixed declared variables of `get_prompt`) makes
`get_prompt` fail with a TemplateError instead of returning a template. -/
theorem C4_missing_slot_fails (t c : String)
    (h : "question" ∉ templateVariables t ∨ "context" ∉ templateVariables t) :
    ∃ e, get_prompt t c = Except.error e := by
  cases hp : parseSegs t with
  | error e =>
    exact ⟨e, get_prompt_error_of_formatStrict t c e
      (formatStrict_parse_error t _ e hp)⟩
  | ok segs =>
    have hvars : templateVariables t = segVars segs := by
      simp [templateVariables, hp]
    rw [hvars] at h
    have hfs : formatStrict t (["question", "context"].map (fun v => (v, "foo")))
        = formatChecked segs (["question", "context"].map (fun v => (v, "foo"))) :=
      formatStrict_parse_ok t _ segs hp
    cases hfind : (segVars segs).find?
        (fun m => (((["question", "context"].map (fun v => (v, "foo"))).lookup m).isNone)) with
    | some n =>
      refine ⟨TemplateError.missingVariable n,
        get_prompt_error_of_formatStrict t c _ ?_⟩
      rw [hfs]
      exact formatChecked_missing segs _ n hfind
    | none =>
      cases hfind2 : ((["question", "context"].map (fun v => (v, "foo"))).map Prod.fst).find?
          (fun m => !(segVars segs).contains m) with
      | none =>
        exfalso
        have hall := List.find?_eq_none.mp hfind2
        have h1 := hall "question" (by simp)
        have h2 := hall "context" (by simp)
        cases h with
        | inl hq0 => exact h1 (by simpa using hq0)
        | inr hc0 => exact h2 (by simpa using hc0)
      | some k =>
        refine ⟨TemplateError.unusedVariable k,
          get_prompt_error_of_formatStrict t c _ ?_⟩
        rw [hfs]
        exact formatChecked_unused segs _ k hfind hfind2

/-- C4 witness at a template with no slots at all. -/
theorem C4_missing_slot_fails_witness :
    ("question" ∉ templateVariables "no slots at all"
      ∨ "context" ∉ templateVariables "no slots at all")
    ∧ ∃ e, get_prompt "no slots at all" "ctx" = Except.error e :=
  ⟨by decide, C4_missing_slot_fails "no slots at all" "ctx" (by decide)⟩

/-- C3 counterexample: the template "{question} {context} {foo}"
contains both required slots, yet `get_prompt` fails (construction-time
validation rejects the undeclared extra slot), refuting the claim that
every template text containing both slots makes buildPrompt succeed. -/
theorem C3_counterexample :
    get_prompt "{question} {context} {foo}" "c"
      = Except.error (TemplateError.missingVariable "foo") := by
  decide

/-- C3 amended: for every template text whose slot set is exactly
`question` and `context`, `get_prompt` succeeds, and rendering the
partially applied template with a question equals strict-formatting the
original template with both values substituted together, independent of
the order of the two bindings. -/
theorem C3_exact_slots_render (t c q : String) (segs : List Seg)
    (hp : parseSegs t = Except.ok segs)
    (hq : "question" ∈ segVars segs)
    (hc : "context" ∈ segVars segs)
    (honly : ∀ n ∈ segVars segs, n = "question" ∨ n = "context") :
    get_prompt t c = Except.ok ⟨t, ["question"], [("context", c)]⟩
    ∧ PromptTemplate.format ⟨t, ["question"], [("context", c)]⟩ [("question", q)]
        = Except.ok (renderSegs [("question", q), ("context", c)] segs)
    ∧ formatStrict t [("question", q), ("context", c)]
        = Except.ok (renderSegs [("question", q), ("context", c)] segs)
    ∧ formatStrict t [("context", c), ("question", q)]
        = Except.ok (renderSegs [("question", q), ("context", c)] segs) := by
  have hlook : ∀ (a b n : String), n ∈ segVars segs →
      ((([("question", a), ("context", b)] : List (String × String)).lookup n).isNone
        = false) := by
    intro a b n hn
    rcases honly n hn with h | h <;> subst h <;> rfl
  have hlook2 : ∀ (a b n : String), n ∈ segVars segs →
      ((([("context", b), ("question", a)] : List (String × String)).lookup n).isNone
        = false) := by
    intro a b n hn
    rcases honly n hn with h | h <;> subst h <;> rfl
  have husedK : ∀ k ∈ (["question", "context"] : List String),
      (segVars segs).contains k = true := by
    intro k hk
    simp at hk
    rcases hk with h | h
    · subst h; simpa using hq
    · subst h; simpa using hc
  have husedK2 : ∀ k ∈ (["context", "question"] : List String),
      (segVars segs).contains k = true := by
    intro k hk
    simp at hk
    rcases hk with h | h
    · subst h; simpa using hc
    · subst h; simpa using hq
  have h1 : get_prompt t c = Except.ok ⟨t, ["question"], [("context", c)]⟩ :=
    get_prompt_ok_of_formatStrict t c _
      (formatStrict_render t segs _ hp
        (fun n hn => hlook "foo" "foo" n hn)
        (fun k hk => husedK k hk))
  have h3 : formatStrict t [("question", q), ("context", c)]
      = Except.ok (renderSegs [("question", q), ("context", c)] segs) :=
    formatStrict_render t segs _ hp
      (fun n hn => hlook q c n hn)
      (fun k hk => husedK k hk)
  have h4 : formatStrict t [("context", c), ("question", q)]
      = Except.ok (renderSegs [("context", c), ("question", q)] segs) :=
    formatStrict_render t segs _ hp
      (fun n hn => hlook2 q c n hn)
      (fun k hk => husedK2 k hk)
  have hcong : renderSegs [("context", c), ("question", q)] segs
      = renderSegs [("question", q), ("context", c)] segs :=
    renderSegs_congr _ _ segs
      (fun n hn => by rcases honly n hn with h | h <;> subst h <;> rfl)
  rw [hcong] at h4
  exact ⟨h1, h3, h3, h4⟩

/-- C3 witness at the template "{question} {context}". -/
theorem C3_exact_slots_render_witness :
    parseSegs "{question} {context}"
      = Except.ok [Seg.slot "question", Seg.lit ' ', Seg.slot "context"]
    ∧ (get_prompt "{question} {context}" "paris"
        = Except.ok ⟨"{question} {context}", ["question"], [("context", "paris")]⟩
      ∧ PromptTemplate.format
          ⟨"{question} {context}", ["question"], [("context", "paris")]⟩
          [("question", "who")]
        = Except.ok (renderSegs [("question", "who"), ("context", "paris")]
            [Seg.slot "question", Seg.lit ' ', Seg.slot "context"])
      ∧ formatStrict "{question} {context}" [("question", "who"), ("context", "paris")]
        = Except.ok (renderSegs [("question", "who"), ("context", "paris")]
            [Seg.slot "question", Seg.lit ' ', Seg.slot "context"])
      ∧ formatStrict "{question} {context}" [("context", "paris"), ("question", "who")]
        = Except.ok (renderSegs [("question", "who"), ("context", "paris")]
            [Seg.slot "question", Seg.lit ' ', Seg.slot "context"])) :=
  ⟨by decide, C3_exact_slots_render "{question} {context}" "paris" "who"
    [Seg.slot "question", Seg.lit ' ', Seg.slot "context"]
    (by decide) (by decide) (by decide) (by decide)⟩

/-- C2: building the prompt from the template "Q: {question} CTX:
{context}" with context "paris is the capital" and then answering the
question "what is paris?" hands exactly the rendered text
"Q: what is paris? CTX: paris is the capital" to the model's generation
capability before generation, whatever that capability is. -/
theorem C2_end_to_end (gen : String → String) :
    get_prompt "Q: {question} CTX: {context}" "paris is the capital"
      = Except.ok ⟨"Q: {question} CTX: {context}", ["question"],
          [("context", "paris is the capital")]⟩
    ∧ get_answer
        (LLMChainModel.call
          ⟨⟨"Q: {question} CTX: {context}", ["question"],
            [("context", "paris is the capital")]⟩, gen⟩)
        "what is paris?"
      = Except.ok [("question", "what is paris?"),
          ("text", gen "Q: what is paris? CTX: paris is the capital")] := by
  constructor
  · decide
  · have hf : PromptTemplate.format
        ⟨"Q: {question} CTX: {context}", ["question"],
          [("context", "paris is the capital")]⟩
        [("question", "what is paris?")]
        = Except.ok "Q: what is paris? CTX: paris is the capital" := by decide
    unfold get_answer LLMChainModel.call
    rw [hf]
    rfl
